import Mathlib

/-!
Verification of the pulumi aws-infra component library against its design
specification.  The TypeScript sources are shallowly embedded: pure computations
become Lean functions, the two module-level caches become explicit state values,
machine integers become Nat, and thrown errors become Except results.
-/

/- ### Container port mappings (containerDefinition.ts 139-155, part_003 84-108) -/

structure PortMapping where
  containerPort : Nat
  hostPort : Option Nat
  protocol : Option String
deriving DecidableEq, Repr

/-- Embedding of initializePortMapping (containerDefinition.ts 139-155): when the host
port is undefined it is populated with the container port, otherwise the mapping is
returned unchanged. -/
def initializePortMapping (portMapping : PortMapping) : PortMapping :=
  match portMapping.hostPort with
  | none => PortMapping.mk portMapping.containerPort (some portMapping.containerPort)
      portMapping.protocol
  | some _ => portMapping

/-- Embedding of convertMappings (part_003 lines 84-108): each mapping is copied and the
copy receives the same hostPort defaulting that initializePortMapping applies. -/
def convertMappings : List PortMapping → List PortMapping
  | [] => []
  | m :: rest => initializePortMapping m :: convertMappings rest

/- ### Environment merging (part_003 lines 21-38, awsx/utils.ts 44-56) -/

structure KeyValuePair where
  name : String
  value : String
deriving DecidableEq, Repr

/-- Embedding of combineArrays (awsx/utils.ts 44-56): undefined inputs become empty
arrays and the two arrays are concatenated, first argument first. -/
def combineArrays (e1 e2 : Option (List KeyValuePair)) : List KeyValuePair :=
  e1.getD [] ++ e2.getD []

/-- The image field of a Container (part_003 lines 183-196): either a plain image name
or a ContainerImageProvider supplying an image plus injected environment entries. -/
inductive ContainerImage
  | str (s : String)
  | provider (image : String) (environment : List KeyValuePair)
deriving DecidableEq, Repr

/-- Embedding of isContainerImageProvider (part_003 lines 193-196). -/
def isContainerImageProvider : ContainerImage → Bool
  | ContainerImage.str _ => false
  | ContainerImage.provider _ _ => true

/-- Embedding of the environment computation in computeContainerDefinition (part_003
lines 28-34): for a provider image the user environment is combined with the provider
environment via combineArrays, otherwise the user environment is passed through. -/
def computeEnvironment (image : ContainerImage) (userEnv : Option (List KeyValuePair)) :
    Option (List KeyValuePair) :=
  match image with
  | ContainerImage.provider _ env => some (combineArrays userEnv (some env))
  | ContainerImage.str _ => userEnv

/- ### Image computation and the build cache (containerDefinition.ts 178-344) -/

structure ContainerBuild where
  context : Option String
  dockerfile : Option String
  args : List (String × String)
deriving DecidableEq, Repr

/-- The build field of a ContainerDefinition: a string path or a ContainerBuild. -/
inductive BuildSpec
  | str (path : String)
  | build (b : ContainerBuild)
deriving DecidableEq, Repr

/-- JS evaluation of the expression build.context || "." used by getBuildImageName:
undefined and the empty string are falsy, so both fall back to ".". -/
def jsContextOrDot : Option String → String
  | none => "."
  | some c => if c == "" then "." else c

/-- Embedding of the signature computation in getBuildImageName (containerDefinition.ts
325-344): the context (or "."), then ";dockerfile=..." when a truthy dockerfile is given,
then one ";arg[k]=v" per build argument in key order. -/
def buildSignature : BuildSpec → String
  | BuildSpec.str s => s
  | BuildSpec.build b =>
      let base := jsContextOrDot b.context
      let withDockerfile :=
        match b.dockerfile with
        | none => base
        | some df => if df == "" then base else base ++ ";dockerfile=" ++ df
      b.args.foldl (fun acc kv => acc ++ ";arg[" ++ kv.fst ++ "]=" ++ kv.snd) withDockerfile

/-- Embedding of getBuildImageName (containerDefinition.ts 325-344).  The sha1hash helper
(awsx/utils.ts 36-42) delegates to the external node crypto library, so the hash is a
parameter here; every property proved below holds for an arbitrary hash function, and the
cache-key inequality driving the C5 counterexample comes from the name suffix alone. -/
def getBuildImageName (hash : String → String) (name : String) (build : BuildSpec) :
    String :=
  hash (buildSignature build) ++ "-container-" ++ name

/-- State of the module-level buildImageCache (containerDefinition.ts 275) plus a count
of docker.buildAndPushImage invocations. -/
structure BuildCacheState where
  cache : List (String × String)
  builds : Nat
deriving DecidableEq, Repr

/-- docker.buildAndPushImage returns a unique content-addressed image name; it is an
external call, modelled as a fresh reference derived from the build counter. -/
def freshImageRef (n : Nat) : String := "unique-image-" ++ toString n

/-- Embedding of computeImageFromBuildWorker (containerDefinition.ts 277-323): a cache
hit returns the recorded reference and leaves the state alone; a miss performs one
build+push and records the resulting reference under the image name. -/
def computeImageFromBuildWorker (hash : String → String) (st : BuildCacheState)
    (name : String) (build : BuildSpec) : BuildCacheState × String :=
  let imageName := getBuildImageName hash name build
  match st.cache.lookup imageName with
  | some uniqueImageName => (st, uniqueImageName)
  | none =>
      let uniqueImageName := freshImageRef st.builds
      (BuildCacheState.mk ((imageName, uniqueImageName) :: st.cache) (st.builds + 1),
        uniqueImageName)

/-- Runs a sequence of build requests (component name, build) against the process-wide
cache, starting empty, returning the final state and the reference each request got. -/
def runBuildRequests (hash : String → String) (reqs : List (String × BuildSpec)) :
    BuildCacheState × List String :=
  reqs.foldl
    (fun acc req =>
      let r := computeImageFromBuildWorker hash acc.fst req.fst req.snd
      (r.fst, acc.snd ++ [r.snd]))
    (BuildCacheState.mk [] 0, [])

/-- Hash stand-in used only to state closed counterexamples; it is deliberately constant
to show that the C5 counterexample does not depend on hash values at all. -/
def modelHash (_ : String) : String := "sha1"

/-- A concrete build specification shared by the two requests of the C5 scenario. -/
def c5Build : BuildSpec := BuildSpec.build (ContainerBuild.mk (some "./app") none [])

/-- The image-source fields of a ContainerDefinition (containerDefinition.ts 70-92).
The source field named function is spelled func here (function is a Lean keyword). -/
structure ContainerSpec where
  image : Option String
  build : Option BuildSpec
  func : Option Unit
deriving DecidableEq, Repr

/-- JS truthiness of the build field as tested by the guard if (container.build):
undefined and the empty string are falsy, a ContainerBuild object is truthy. -/
def truthyBuild : Option BuildSpec → Bool
  | none => false
  | some (BuildSpec.str s) => !(s == "")
  | some (BuildSpec.build _) => true

/-- JS truthiness of the image field as tested by else if (container.image). -/
def truthyImage : Option String → Bool
  | none => false
  | some s => !(s == "")

/-- JS truthiness of the function field as tested by else if (container.function);
a function value is always truthy. -/
def truthyFunction : Option Unit → Bool
  | none => false
  | some _ => true

/-- Which branch of computeImage was selected. -/
inductive ImageSource
  | fromBuild (b : BuildSpec)
  | fromImage (s : String)
  | fromFunction
deriving DecidableEq, Repr

/-- Embedding of computeImage (containerDefinition.ts 178-232): build, then image, then
function are tested for truthiness in order; if none applies the descriptive validation
error is thrown before any provider call. -/
def computeImage (c : ContainerSpec) : Except String ImageSource :=
  if truthyBuild c.build then
    Except.ok (ImageSource.fromBuild (c.build.getD (BuildSpec.str "")))
  else if truthyImage c.image then
    Except.ok (ImageSource.fromImage (c.image.getD ""))
  else if truthyFunction c.func then
    Except.ok ImageSource.fromFunction
  else
    Except.error "Invalid container definition: `image`, `build`, or `function` must be provided"

/- ### Task run failure handling (clusterTaskDefinition.ts 243-312) -/

/-- JSON.stringify of the failures array is performed by the external JS runtime;
modelled as a fixed rendering of the failure messages. -/
def stringifyFailures (fs : List String) : String :=
  "[" ++ String.intercalate "," fs ++ "]"

/-- The failures field of the aws-sdk runTask response. -/
structure RunTaskResponse where
  failures : Option (List String)
deriving DecidableEq, Repr

/-- Embedding of the failure handling at the end of runTask (clusterTaskDefinition.ts
293-298): a present, non-empty failures list is logged and then thrown as an Error whose
message appends the serialized list; otherwise the function returns undefined, which is
modelled as Except.ok with an empty list (no failure list is ever returned). -/
def runTaskOutcome (res : RunTaskResponse) : Except String (List String) :=
  match res.failures with
  | some fs =>
      if 0 < fs.length then
        Except.error ("Failed to start task:" ++ stringifyFailures fs)
      else Except.ok []
  | none => Except.ok []

/- ### Vpc constructor validation (vpc.ts 78-83) -/

/-- Embedding of the numberOfAvailabilityZones defaulting (vpc.ts 79). -/
def effectiveAvailabilityZones (numberOfAvailabilityZones : Option Nat) : Nat :=
  match numberOfAvailabilityZones with
  | none => 2
  | some n => n

/-- Embedding of the numberOfNatGateways defaulting (vpc.ts 80): it defaults to the
effective availability-zone count. -/
def effectiveNatGateways (az : Nat) (numberOfNatGateways : Option Nat) : Nat :=
  match numberOfNatGateways with
  | none => az
  | some n => n

/-- The validation error message thrown at vpc.ts 82. -/
def natGatewayErrorMessage (nat az : Nat) : String :=
  "[numberOfNatGateways] cannot be greater than [numberOfAvailabilityZones]: "
    ++ toString nat ++ " > " ++ toString az

/-- Embedding of the defaulting-plus-validation prefix of the VpcArgs constructor branch
(vpc.ts 78-83).  This code runs before the aws.ec2.Vpc resource (vpc.ts 85) or any
subnet, gateway or route is declared, so an error here aborts construction with no
resource declared. -/
def vpcGatewayValidation (azArg natArg : Option Nat) : Except String (Nat × Nat) :=
  let az := effectiveAvailabilityZones azArg
  let nat := effectiveNatGateways az natArg
  if az < nat then Except.error (natGatewayErrorMessage nat az)
  else Except.ok (az, nat)

/- ### Vpc.getDefault (vpc.ts 23, 209-235) -/

/-- Observable outcome of one Vpc.getDefault call: the value returned, the value of the
module-level defaultVpc cache afterwards, and whether the aws.ec2.getVpc lookup and the
Vpc construction were performed.  Vpc component values are abstracted to Nat ids. -/
structure GetDefaultOutcome where
  returned : Option Nat
  newCache : Option Nat
  lookupPerformed : Bool
  vpcConstructed : Bool
deriving DecidableEq, Repr

/-- Embedding of Vpc.getDefault (vpc.ts 209-235) acting on the module-level defaultVpc
cache (vpc.ts 23).  The guard is if (!defaultVpc) return defaultVpc: an unset (falsy)
cache is returned immediately, while a set cache falls through to the branch that looks
up the default vpc, constructs a new Vpc (abstracted as freshVpc), overwrites the cache
with it and returns it. -/
def getDefault (defaultVpc : Option Nat) (freshVpc : Nat) : GetDefaultOutcome :=
  match defaultVpc with
  | none => GetDefaultOutcome.mk none none false false
  | some _ => GetDefaultOutcome.mk (some freshVpc) (some freshVpc) true true

/- ### CIDR topology partitioning (VpcTopology.createSubnets) -/

/-- An IPv4 CIDR block: a 32-bit base address plus a prefix length. -/
structure Cidr where
  addr : Nat
  mask : Nat
deriving DecidableEq, Repr

/-- Number of addresses covered by a CIDR block. -/
def Cidr.size (c : Cidr) : Nat := 2 ^ (32 - c.mask)

/-- Two CIDR blocks are disjoint when their address ranges do not overlap. -/
def Cidr.disjointBlocks (c d : Cidr) : Prop :=
  c.addr + c.size ≤ d.addr ∨ d.addr + d.size ≤ c.addr

/-- A CIDR block is contained in a parent block when its address range is a subrange of
the parent range. -/
def Cidr.containedIn (c p : Cidr) : Prop :=
  p.addr ≤ c.addr ∧ c.addr + c.size ≤ p.addr + p.size

/-- The type of a requested subnet (vpc.ts 340). -/
inductive VpcSubnetType
  | Public
  | Private
  | Isolated
deriving DecidableEq, Repr

/-- A subnet request (vpc.ts 350-377, with the optional explicit cidrMask absent: the
spec describes the partitioning algorithm for the no-explicit-mask path). -/
structure VpcSubnetArgs where
  type : VpcSubnetType
  name : Option String
deriving DecidableEq, Repr

/-- Auxiliary search for the smallest exponent k (starting from the accumulator) with
n ≤ 2 ^ k, written with explicit fuel so that it is structurally recursive. -/
def ceilLog2From (n : Nat) : Nat → Nat → Nat
  | 0, k => k
  | fuel + 1, k => if n ≤ 2 ^ k then k else ceilLog2From n fuel (k + 1)

/-- Smallest k with n ≤ 2 ^ k: the number of extra prefix bits needed to cut n child
blocks out of a parent block. -/
def ceilLog2 (n : Nat) : Nat := ceilLog2From n n 0

/-- Modelled from the spec: VpcTopology.createSubnets lives in
nodejs/aws-infra/experimental/ec2/vpcTopology.ts, which is not among the provided
sources (vpc.ts 96-102 only calls it).  Following spec section 4.1: when no explicit
mask is given, compute the smallest mask that lets zones times subnet-types equally
sized blocks fit within the parent block (rounding the subnet count up to the nearest
power of two), then slice the parent block into contiguous chunks of that size, one per
(zone, subnet-spec) pair in input order; a parent block too small for the requested
split is a hard error with no partial result. -/
def createSubnets (parent : Cidr) (zoneCount : Nat) (subnetSpecs : List VpcSubnetArgs) :
    Except String (List Cidr) :=
  let count := zoneCount * subnetSpecs.length
  let newBits := ceilLog2 count
  let childMask := parent.mask + newBits
  if 32 < childMask then
    Except.error "The vpc cidrBlock is too small to create the requested subnets"
  else
    Except.ok ((List.range count).map fun k =>
      Cidr.mk (parent.addr + k * 2 ^ (32 - childMask)) childMask)

/-- Concrete inputs for the C1 witness: the spec example 10.0.0.0/16, two zones, one
public and one private subnet request. -/
def c1Parent : Cidr := Cidr.mk 167772160 16

/-- Subnet requests of the C1 witness scenario. -/
def c1Specs : List VpcSubnetArgs :=
  [VpcSubnetArgs.mk VpcSubnetType.Public none, VpcSubnetArgs.mk VpcSubnetType.Private none]

/-- The four /18 blocks the partitioner produces for the C1 witness scenario. -/
def c1Blocks : List Cidr :=
  [Cidr.mk 167772160 18, Cidr.mk 167788544 18, Cidr.mk 167804928 18, Cidr.mk 167821312 18]

/- ### NAT gateway creation and routing (vpc.ts 138-202) -/

/-- Embedding of the gateway-creation loop (vpc.ts 144-174): gateway i is placed in the
public subnet of availability zone i % numberOfAvailabilityZones; the resulting list
holds, for each created gateway in order, the zone it was placed in.  Its length is the
length of the natGateways array. -/
def natGatewayZones (az nat : Nat) : List Nat :=
  (List.range nat).map fun i => i % az

/-- Embedding of the inner routing loop (vpc.ts 187-200): rem slots remain in the
current band, j is the current in-band position, rr is the round-robin counter.  Returns
the natGateways index chosen for each remaining slot and the final counter value. -/
def natInner (nat : Nat) : Nat → Nat → Nat → List Nat × Nat
  | 0, _, rr => ([], rr)
  | rem + 1, j, rr =>
    if j < nat then
      (j :: (natInner nat rem (j + 1) rr).fst, (natInner nat rem (j + 1) rr).snd)
    else
      (rr :: (natInner nat rem (j + 1) (rr + 1)).fst, (natInner nat rem (j + 1) (rr + 1)).snd)

/-- Embedding of the outer routing loop (vpc.ts 180-201): one full band of az slots per
iteration, threading the round-robin counter from band to band without resetting it. -/
def natOuter (az nat : Nat) : Nat → Nat → List Nat
  | 0, _ => []
  | bands + 1, rr =>
    (natInner nat az 0 rr).fst ++ natOuter az nat bands (natInner nat az 0 rr).snd

/-- Embedding of createNatGateways (vpc.ts 138-202) restricted to its observable routing
decisions: given the zone count, the gateway count and the numbers of private and public
subnets, returns for each private subnet in order the index into the natGateways array
used for its route.  The guard (vpc.ts 140-142) produces no routes; the outer loop runs
for i = 0, az, 2 az, ... while i is less than nPrivate, hence takes the ceiling of
nPrivate / az bands. -/
def createNatGateways (az nat nPrivate nPublic : Nat) : List Nat :=
  if nPrivate = 0 ∨ nat = 0 ∨ nPublic = 0 then []
  else natOuter az nat ((nPrivate + az - 1) / az) 0

/- ### Helper lemmas -/

theorem convertMappings_eq_map (ms : List PortMapping) :
    convertMappings ms = ms.map initializePortMapping := by
  induction ms with
  | nil => rfl
  | cons m rest ih => simp [convertMappings, ih]

/- ### Claim theorems -/

/-- C6: a port mapping whose hostPort is undefined normalizes to one whose hostPort
equals its containerPort; in particular (containerPort 80, no hostPort) becomes
(containerPort 80, hostPort 80); a mapping with hostPort already specified is unchanged;
and convertMappings applies exactly this normalization to every mapping in the list. -/
theorem initializePortMapping_defaultsHostPort (m : PortMapping) :
    (m.hostPort = none → initializePortMapping m =
      PortMapping.mk m.containerPort (some m.containerPort) m.protocol) ∧
    (∀ h, m.hostPort = some h → initializePortMapping m = m) ∧
    initializePortMapping (PortMapping.mk 80 none none) = PortMapping.mk 80 (some 80) none ∧
    ∀ ms : List PortMapping, convertMappings ms = ms.map initializePortMapping := by
  refine ⟨fun hnone => ?_, fun h hsome => ?_, rfl, convertMappings_eq_map⟩
  · simp [initializePortMapping, hnone]
  · simp [initializePortMapping, hsome]

/-- C6 witness: the concrete mapping of the claim, normalized by applying the claim
theorem at containerPort 80 with no hostPort. -/
theorem initializePortMapping_defaultsHostPort_witness :
    initializePortMapping (PortMapping.mk 80 none none) = PortMapping.mk 80 (some 80) none :=
  (initializePortMapping_defaultsHostPort (PortMapping.mk 80 none none)).1 rfl

/-- C7: for a container whose image is a ContainerImageProvider, the computed
environment is the user-supplied list (undefined treated as empty) with the
provider-injected list concatenated after it; the equality to list append means every
entry is retained in order, and the countP conjunct makes explicit that entries with
duplicate keys are all kept rather than de-duplicated. -/
theorem computeEnvironment_appendsProviderEnv (img : String)
    (injected : List KeyValuePair) (userEnv : Option (List KeyValuePair)) :
    computeEnvironment (ContainerImage.provider img injected) userEnv =
      some (userEnv.getD [] ++ injected) ∧
    ∀ k : String,
      (userEnv.getD [] ++ injected).countP (fun e => e.name == k) =
        (userEnv.getD []).countP (fun e => e.name == k) +
          injected.countP (fun e => e.name == k) := by
  exact ⟨rfl, fun k => by rw [List.countP_append]⟩

/-- C8 counterexample: a container whose image field is set to the empty string has one
of the three fields set, yet computeImage still throws the validation error, because the
source tests the fields with JS truthiness (else if (container.image)) and the empty
string is falsy. -/
theorem computeImage_c8_counterexample :
    (ContainerSpec.mk (some "") none none).image = some "" ∧
    computeImage (ContainerSpec.mk (some "") none none) =
      Except.error "Invalid container definition: `image`, `build`, or `function` must be provided" := by
  exact ⟨rfl, rfl⟩

/-- C8 (amended): computeImage throws the descriptive validation error exactly when none
of build, image, function is set to a JS-truthy value (an object, a function value, or a
non-empty string); in particular a container with all three fields undefined fails
validation before any provider call, while a field set to the empty string is treated as
unset. -/
theorem computeImage_missingSourceValidation (c : ContainerSpec) :
    (computeImage c =
        Except.error "Invalid container definition: `image`, `build`, or `function` must be provided"
      ↔ truthyBuild c.build = false ∧ truthyImage c.image = false ∧
          truthyFunction c.func = false) ∧
    (c.image = none → c.build = none → c.func = none →
      computeImage c =
        Except.error "Invalid container definition: `image`, `build`, or `function` must be provided") := by
  constructor
  · by_cases hb : truthyBuild c.build
    · simp [computeImage, hb]
    · by_cases hi : truthyImage c.image
      · simp [computeImage, hb, hi]
      · by_cases hf : truthyFunction c.func
        · simp [computeImage, hb, hi, hf]
        · simp [computeImage, hb, hi, hf]
  · intro h1 h2 h3
    simp [computeImage, truthyBuild, truthyImage, truthyFunction, h1, h2, h3]

/-- C8 witness: a container definition with none of the three fields set, run through
the amended claim theorem. -/
theorem computeImage_missingSourceValidation_witness :
    computeImage (ContainerSpec.mk none none none) =
      Except.error "Invalid container definition: `image`, `build`, or `function` must be provided" :=
  (computeImage_missingSourceValidation (ContainerSpec.mk none none none)).2 rfl rfl rfl

/-- C9 counterexample: a run whose response reports one failure produces a thrown error
(the Except.error value carrying the logged message), not an Except.ok carrying the
failure list, so failures are not returned to the caller as a structured list. -/
theorem runTaskOutcome_c9_counterexample :
    runTaskOutcome (RunTaskResponse.mk (some ["task failure"])) =
      Except.error ("Failed to start task:" ++ stringifyFailures ["task failure"]) ∧
    runTaskOutcome (RunTaskResponse.mk (some ["task failure"])) ≠
      Except.ok ["task failure"] := by
  exact ⟨rfl, fun h => Except.noConfusion h⟩

/-- C9 (amended): whenever the underlying run request reports one or more failures, the
run function logs them and throws an Error whose message appends the serialized failure
list; it never returns normally in that case, so the caller cannot inspect a returned
failure list. -/
theorem runTaskOutcome_throwsOnFailures (res : RunTaskResponse) (fs : List String)
    (hf : res.failures = some fs) (hne : 0 < fs.length) :
    runTaskOutcome res = Except.error ("Failed to start task:" ++ stringifyFailures fs) ∧
    ∀ l, runTaskOutcome res ≠ Except.ok l := by
  have herr : runTaskOutcome res =
      Except.error ("Failed to start task:" ++ stringifyFailures fs) := by
    simp [runTaskOutcome, hf, hne]
  refine ⟨herr, fun l h => ?_⟩
  rw [herr] at h
  exact Except.noConfusion h

/-- C9 witness: the amended claim theorem applied to a concrete single-failure
response. -/
theorem runTaskOutcome_throwsOnFailures_witness :
    runTaskOutcome (RunTaskResponse.mk (some ["boom"])) =
      Except.error ("Failed to start task:" ++ stringifyFailures ["boom"]) :=
  (runTaskOutcome_throwsOnFailures (RunTaskResponse.mk (some ["boom"])) ["boom"]
    rfl (by decide)).1

/-- C4: with numberOfNatGateways defaulting to numberOfAvailabilityZones (itself
defaulting to 2), the VpcArgs constructor branch throws the descriptive validation error
exactly when the effective gateway count exceeds the effective zone count, and succeeds
otherwise; the check (vpc.ts 81-83) precedes the declaration of the aws.ec2.Vpc resource
(vpc.ts 85), so the error aborts construction before any cloud resource is declared. -/
theorem vpcGatewayValidation_checksCounts (azArg natArg : Option Nat) :
    (effectiveAvailabilityZones azArg <
        effectiveNatGateways (effectiveAvailabilityZones azArg) natArg →
      vpcGatewayValidation azArg natArg =
        Except.error (natGatewayErrorMessage
          (effectiveNatGateways (effectiveAvailabilityZones azArg) natArg)
          (effectiveAvailabilityZones azArg))) ∧
    (effectiveNatGateways (effectiveAvailabilityZones azArg) natArg ≤
        effectiveAvailabilityZones azArg →
      vpcGatewayValidation azArg natArg =
        Except.ok (effectiveAvailabilityZones azArg,
          effectiveNatGateways (effectiveAvailabilityZones azArg) natArg)) ∧
    effectiveAvailabilityZones none = 2 ∧
    ∀ az, effectiveNatGateways az none = az := by
  refine ⟨fun h => ?_, fun h => ?_, rfl, fun az => rfl⟩
  · simp only [vpcGatewayValidation]
    rw [if_pos h]
  · simp only [vpcGatewayValidation]
    rw [if_neg (by omega)]

/-- C4 witness: the claim theorem applied at 2 availability zones with 3 requested NAT
gateways (error case). -/
theorem vpcGatewayValidation_checksCounts_witness :
    vpcGatewayValidation (some 2) (some 3) = Except.error (natGatewayErrorMessage 3 2) :=
  (vpcGatewayValidation_checksCounts (some 2) (some 3)).1 (by decide)

/-- C10: Vpc.getDefault, called while the module-level defaultVpc cache is unset,
returns the unset cache value (undefined) immediately, performing no lookup and
constructing no resource; the branch that performs the default-vpc lookup and populates
the cache runs only when the cache is already set. -/
theorem getDefault_unsetCacheShortCircuits (freshVpc : Nat) :
    getDefault none freshVpc = GetDefaultOutcome.mk none none false false ∧
    ∀ v, (getDefault (some v) freshVpc).lookupPerformed = true ∧
      (getDefault (some v) freshVpc).vpcConstructed = true ∧
      (getDefault (some v) freshVpc).newCache = some freshVpc ∧
      (getDefault (some v) freshVpc).returned = some freshVpc := by
  exact ⟨rfl, fun v => ⟨rfl, rfl, rfl, rfl⟩⟩

/-- C5 counterexample: two distinct components (serviceA and serviceB) requesting builds
with identical context, Dockerfile and build args cause two build invocations and
receive distinct image references, because the cache key produced by getBuildImageName
appends the component name to the hash of the build signature; this holds even under a
constant hash function, since the keys differ in the name suffix. -/
theorem buildCache_c5_counterexample :
    (runBuildRequests modelHash [("serviceA", c5Build), ("serviceB", c5Build)]).fst.builds = 2 ∧
    (runBuildRequests modelHash [("serviceA", c5Build), ("serviceB", c5Build)]).snd =
      [freshImageRef 0, freshImageRef 1] ∧
    freshImageRef 0 ≠ freshImageRef 1 := by
  exact ⟨rfl, rfl, by decide⟩

/-- C5 (amended): the build cache memoizes per cache key, and the key is the hashed
build signature plus the requesting component name; hence two requests with identical
build context, Dockerfile, build args and the same component name invoke exactly one
build+push and both receive the recorded image reference, for any hash function. -/
theorem buildCache_memoizes (hash : String → String) (name : String) (b : BuildSpec) :
    (runBuildRequests hash [(name, b), (name, b)]).fst.builds = 1 ∧
    (runBuildRequests hash [(name, b), (name, b)]).snd =
      [freshImageRef 0, freshImageRef 0] := by
  simp [runBuildRequests, computeImageFromBuildWorker, List.lookup]

theorem ceilLog2From_le (n : Nat) :
    ∀ fuel k, n ≤ 2 ^ (k + fuel) → n ≤ 2 ^ ceilLog2From n fuel k := by
  intro fuel
  induction fuel with
  | zero => intro k h; simpa using h
  | succ fuel ih =>
    intro k h
    simp only [ceilLog2From]
    split
    · assumption
    · exact ih (k + 1) (by rw [show k + 1 + fuel = k + (fuel + 1) by omega]; exact h)

theorem le_pow_ceilLog2 (n : Nat) : n ≤ 2 ^ ceilLog2 n :=
  ceilLog2From_le n n 0 (by simpa using (Nat.lt_two_pow n).le)

theorem chunk_lt_chunk (p cs i j : Nat) (hij : i < j) :
    p + i * cs + cs ≤ p + j * cs := by
  have h1 : i * cs + cs ≤ j * cs := by
    have h2 : (i + 1) * cs ≤ j * cs := Nat.mul_le_mul_right cs (by omega)
    have h3 : i * cs + cs = (i + 1) * cs := by ring
    rw [h3]
    exact h2
  rw [Nat.add_assoc]
  exact Nat.add_le_add_left h1 p

/-- C1: for every valid input (parent block, zone count at least 1, non-empty subnet
spec list, parent block large enough that the partitioner does not error), the
partitioner produces exactly zoneCount times len(subnetSpecs) CIDR blocks that are
pairwise non-overlapping and each fully contained within the parent block. -/
theorem createSubnets_partition (parent : Cidr) (zoneCount : Nat)
    (subnetSpecs : List VpcSubnetArgs) (blocks : List Cidr)
    (hz : 1 ≤ zoneCount) (hs : subnetSpecs ≠ [])
    (hok : createSubnets parent zoneCount subnetSpecs = Except.ok blocks) :
    blocks.length = zoneCount * subnetSpecs.length ∧
    (∀ (i j : Nat) (bi bj : Cidr), i ≠ j → blocks[i]? = some bi → blocks[j]? = some bj →
      Cidr.disjointBlocks bi bj) ∧
    (∀ b ∈ blocks, b.containedIn parent) := by
  simp only [createSubnets] at hok
  set count := zoneCount * subnetSpecs.length with hcount
  set nb := ceilLog2 count with hnb
  set cm := parent.mask + nb with hcm
  set cs := 2 ^ (32 - cm) with hcs
  by_cases hm : 32 < cm
  · rw [if_pos hm] at hok
    exact absurd hok (by simp)
  · rw [if_neg hm] at hok
    have hb : blocks = (List.range count).map fun k => Cidr.mk (parent.addr + k * cs) cm :=
      (Except.ok.inj hok).symm
    subst hb
    have hcs0 : 0 < cs := Nat.pos_pow_of_pos _ (by omega)
    refine ⟨by simp, ?_, ?_⟩
    · intro i j bi bj hne hbi hbj
      rcases List.getElem?_eq_some.mp hbi with ⟨hi, hbi2⟩
      rcases List.getElem?_eq_some.mp hbj with ⟨hj, hbj2⟩
      simp at hbi2 hbj2
      subst hbi2
      subst hbj2
      have hgoal : parent.addr + i * cs + cs ≤ parent.addr + j * cs ∨
          parent.addr + j * cs + cs ≤ parent.addr + i * cs := by
        rcases Nat.lt_or_ge i j with hlt | hge
        · exact Or.inl (chunk_lt_chunk parent.addr cs i j hlt)
        · exact Or.inr (chunk_lt_chunk parent.addr cs j i (by omega))
      simpa [Cidr.disjointBlocks, Cidr.size, ← hcs] using hgoal
    · intro b hbmem
      rcases List.mem_map.mp hbmem with ⟨k, hk, rfl⟩
      have hklt : k < count := List.mem_range.mp hk
      refine ⟨Nat.le_add_right _ _, ?_⟩
      have hc2 : count ≤ 2 ^ nb := le_pow_ceilLog2 count
      have hup : (k + 1) * cs ≤ 2 ^ nb * cs := Nat.mul_le_mul_right cs (by omega)
      have hpow : 2 ^ nb * cs = 2 ^ (32 - parent.mask) := by
        rw [hcs, ← pow_add, show nb + (32 - cm) = 32 - parent.mask by omega]
      have hsz : Cidr.size (Cidr.mk (parent.addr + k * cs) cm) = cs := by
        simp [Cidr.size, hcs]
      have hpsz : Cidr.size parent = 2 ^ (32 - parent.mask) := rfl
      rw [hsz, hpsz]
      have hchain : parent.addr + k * cs + cs ≤ parent.addr + 2 ^ (32 - parent.mask) := by
        rw [Nat.add_assoc]
        refine Nat.add_le_add_left ?_ parent.addr
        calc k * cs + cs = (k + 1) * cs := by ring
          _ ≤ 2 ^ nb * cs := hup
          _ = 2 ^ (32 - parent.mask) := hpow
      exact hchain

/-- C1 witness: the spec example (10.0.0.0/16, two zones, one public and one private
subnet request) yields four /18 blocks, shown by applying the claim theorem with every
hypothesis discharged on the concrete input. -/
theorem createSubnets_partition_witness :
    c1Blocks.length = 2 * c1Specs.length ∧ ∀ b ∈ c1Blocks, b.containedIn c1Parent := by
  have h := createSubnets_partition c1Parent 2 c1Specs c1Blocks (by decide) (by decide) rfl
  exact ⟨h.1, h.2.2⟩

theorem natInner_length (nat : Nat) :
    ∀ rem j rr, (natInner nat rem j rr).fst.length = rem := by
  intro rem
  induction rem with
  | zero => intro j rr; rfl
  | succ rem ih =>
    intro j rr
    simp only [natInner]
    split
    · simp [ih]
    · simp [ih]

theorem natInner_getElem (nat : Nat) :
    ∀ rem j rr p, p < rem →
      (natInner nat rem j rr).fst[p]? =
        some (if j + p < nat then j + p else rr + (j + p - max j nat)) := by
  intro rem
  induction rem with
  | zero => intro j rr p hp; omega
  | succ rem ih =>
    intro j rr p hp
    simp only [natInner]
    split
    case isTrue hlt =>
      cases p with
      | zero =>
        simp only [List.getElem?_cons_zero]
        rw [if_pos (by omega)]
        simp
      | succ p =>
        simp only [List.getElem?_cons_succ]
        rw [ih (j + 1) rr p (by omega)]
        congr 1
        have h1 : j + 1 + p = j + (p + 1) := by omega
        rw [h1]
        by_cases hc : j + (p + 1) < nat
        · simp [hc]
        · rw [if_neg hc, if_neg hc]
          omega
    case isFalse hge =>
      cases p with
      | zero =>
        simp only [List.getElem?_cons_zero]
        rw [if_neg (by omega)]
        congr 1
        omega
      | succ p =>
        simp only [List.getElem?_cons_succ]
        rw [ih (j + 1) (rr + 1) p (by omega)]
        congr 1
        rw [if_neg (by omega), if_neg (by omega)]
        omega

theorem natInner_snd (nat : Nat) :
    ∀ rem j rr, (natInner nat rem j rr).snd = rr + (j + rem - max j nat) := by
  intro rem
  induction rem with
  | zero =>
    intro j rr
    simp only [natInner]
    omega
  | succ rem ih =>
    intro j rr
    simp only [natInner]
    split
    case isTrue hlt =>
      simp only [ih (j + 1) rr]
      omega
    case isFalse hge =>
      simp only [ih (j + 1) (rr + 1)]
      omega

theorem natOuter_getElem (az nat : Nat) :
    ∀ bands rr b j, b < bands → j < az →
      (natOuter az nat bands rr)[b * az + j]? =
        some (if j < nat then j else rr + b * (az - nat) + (j - nat)) := by
  intro bands
  induction bands with
  | zero => intro rr b j hb hj; omega
  | succ bands ih =>
    intro rr b j hb hj
    simp only [natOuter]
    cases b with
    | zero =>
      rw [List.getElem?_append_left (by rw [natInner_length]; omega)]
      have h0 : (0 : Nat) * az + j = j := by omega
      rw [h0, natInner_getElem nat az 0 rr j (by omega)]
      congr 1
      by_cases hc : j < nat
      · rw [if_pos (by omega), if_pos hc]
        omega
      · rw [if_neg (by omega), if_neg hc]
        omega
    | succ b =>
      have hmul : (b + 1) * az = b * az + az := by ring
      rw [List.getElem?_append_right (by rw [natInner_length]; omega)]
      rw [natInner_length]
      have hidx : (b + 1) * az + j - az = b * az + j := by omega
      rw [hidx, natInner_snd, ih ((rr + (0 + az - max 0 nat))) b j (by omega) hj]
      congr 1
      by_cases hc : j < nat
      · rw [if_pos hc, if_pos hc]
      · rw [if_neg hc, if_neg hc]
        have hmul2 : (b + 1) * (az - nat) = b * (az - nat) + (az - nat) := by ring
        omega

/-- C2: in createNatGateways, with private subnets produced in repeating per-zone bands
of width az, the private subnet at band b, in-band position j, is routed to gateway j
when j is below the gateway count (and gateway j sits in zone j), and otherwise to the
gateway index given by a single round-robin counter that starts at 0 and accumulates
across all bands, never resetting at a band boundary: its value at band b, position j is
b * (az - nat) + (j - nat). -/
theorem createNatGateways_bandRouting (az nat bands nPublic b j : Nat)
    (haz : 0 < az) (hnat : 0 < nat) (hle : nat ≤ az) (hpub : 0 < nPublic)
    (hb : b < bands) (hj : j < az) :
    (createNatGateways az nat (bands * az) nPublic)[b * az + j]? =
      some (if j < nat then j else b * (az - nat) + (j - nat)) ∧
    (j < nat → (natGatewayZones az nat)[j]? = some j) := by
  constructor
  · have hprod : bands * az ≠ 0 := Nat.mul_ne_zero (by omega) (by omega)
    simp only [createNatGateways]
    rw [if_neg (by push_neg; exact ⟨hprod, by omega, by omega⟩)]
    have hcomm : bands * az = az * bands := by ring
    have hceil : (bands * az + az - 1) / az = bands := by
      have h1 : bands * az + az - 1 = az * bands + (az - 1) := by omega
      rw [h1, Nat.mul_add_div haz]
      have h2 : (az - 1) / az = 0 := Nat.div_eq_of_lt (by omega)
      omega
    rw [hceil, natOuter_getElem az nat bands 0 b j hb hj]
    congr 1
    by_cases hc : j < nat
    · rw [if_pos hc, if_pos hc]
    · rw [if_neg hc, if_neg hc]
      omega
  · intro hjn
    simp only [natGatewayZones]
    rw [List.getElem?_map, List.getElem?_range (by omega)]
    simp [Nat.mod_eq_of_lt hj]

/-- C2 witness: 3 zones, 1 gateway, 2 bands of private subnets, 1 public subnet; the
subnet at band 1, position 2 is a round-robin subnet and receives the accumulated
counter value 1 * (3 - 1) + (2 - 1) = 3, not a per-band-reset value. -/
theorem createNatGateways_bandRouting_witness :
    (createNatGateways 3 1 (2 * 3) 1)[1 * 3 + 2]? =
      some (if 2 < 1 then 2 else 1 * (3 - 1) + (2 - 1)) ∧
    (2 < 1 → (natGatewayZones 3 1)[2]? = some 2) :=
  createNatGateways_bandRouting 3 1 2 1 1 2 (by decide) (by decide) (by decide)
    (by decide) (by decide) (by decide)

/-- C3: the claim is violated by the code.  With 3 availability zones, 1 NAT gateway,
3 private subnets (one full band) and 1 public subnet, the natGateways array has length
1, yet the accumulated round-robin counter routes the third private subnet to index 1,
which is out of bounds: that private subnet is not assigned any actually created
gateway.  The counter is incremented without ever being reduced modulo the gateway
count, contradicting the round-robin described by the code comments (vpc.ts 184-186)
and the VpcArgs documentation (vpc.ts 424-426). -/
theorem createNatGateways_c3_outOfBounds :
    createNatGateways 3 1 3 1 = [0, 0, 1] ∧
    (natGatewayZones 3 1).length = 1 ∧
    1 ∈ createNatGateways 3 1 3 1 ∧ ¬ 1 < (natGatewayZones 3 1).length := by
  exact ⟨rfl, rfl, by decide, by decide⟩
